import Mathlib

/-!
Shallow embedding of `homeassistant/components/climate/nest.py`
(class `NestThermostat`): the data model, the constructor, the cached-state
refresh (`update`), the read accessors and the write commands, together with
theorems checking the natural-language specification against them.

Python `None` is modelled with `Option`; Python truthiness of the values the
code truthy-tests is made explicit (`PyNum.truthy`, `FanVal.truthy`).  A read
accessor that can hit an uncaught Python `TypeError` (subscripting `None` or a
non-tuple) returns `Except Unit _`, where `.error ()` is the exception path.
Vendor writes of the target that the remote service rejects are modelled by a
predicate `rejectTarget` on the device handle; the adapter's reaction (log,
schedule a forced refresh) is recorded in an effect trace.
-/

/-- Constant from the climate component. Modelled from the spec: the host
platform's state tokens (the climate component is not part of this file's
sources); values are the lowercase mode names the spec names. -/
def STATE_HEAT : String := "heat"

/-- Constant from the host platform, modelled from the spec. -/
def STATE_COOL : String := "cool"

/-- Constant from the host platform, modelled from the spec. -/
def STATE_OFF : String := "off"

/-- Constant from the host platform, modelled from the spec. -/
def STATE_ECO : String := "eco"

/-- Constant from the host platform, modelled from the spec. -/
def STATE_AUTO : String := "auto"

/-- Constant from the host platform, modelled from the spec. -/
def STATE_ON : String := "on"

/-- Constant from the host platform, modelled from the spec. -/
def STATE_UNKNOWN : String := "unknown"

/-- Constant from the host platform, modelled from the spec. -/
def TEMP_CELSIUS : String := "°C"

/-- Constant from the host platform, modelled from the spec. -/
def TEMP_FAHRENHEIT : String := "°F"

/-- Vendor token for combined heat-cool operation (from the source:
`NEST_MODE_HEAT_COOL = 'heat-cool'`). -/
def NEST_MODE_HEAT_COOL : String := "heat-cool"

/-- Feature bit. Modelled from the spec: the climate component's
supported-feature bitset constants are not in the sources; they are distinct
powers of two, which is all the adapter relies on. -/
def SUPPORT_TARGET_TEMPERATURE : Nat := 1

/-- Feature bit, modelled from the spec (distinct power of two). -/
def SUPPORT_TARGET_TEMPERATURE_HIGH : Nat := 2

/-- Feature bit, modelled from the spec (distinct power of two). -/
def SUPPORT_TARGET_TEMPERATURE_LOW : Nat := 4

/-- Feature bit, modelled from the spec (distinct power of two). -/
def SUPPORT_FAN_MODE : Nat := 64

/-- Feature bit, modelled from the spec (distinct power of two). -/
def SUPPORT_OPERATION_MODE : Nat := 128

/-- Feature bit, modelled from the spec (distinct power of two). -/
def SUPPORT_AWAY_MODE : Nat := 1024

/-- Python numeric-or-None value, as stored in the vendor eco-temperature
tuple: `none` is Python `None`, `num q` a number. -/
inductive PyNum where
  | none
  | num (q : ℚ)
deriving DecidableEq, Repr

/-- Python truthiness of a `PyNum`: `None` and `0` are falsy. -/
def PyNum.truthy : PyNum → Bool
  | .none => false
  | .num q => q ≠ 0

/-- View of a `PyNum` as an optional rational (the value a Python property
returns). -/
def PyNum.toOption : PyNum → Option ℚ
  | .none => Option.none
  | .num q => Option.some q

/-- Value of the vendor device's `target` field: a single setpoint or a
(low, high) tuple. -/
inductive TargetVal where
  | single (q : ℚ)
  | pair (lo hi : ℚ)
deriving DecidableEq, Repr

/-- Python subscript `v[i]` on a cached target value: defined only on tuples
(`'float' object is not subscriptable` otherwise). -/
def TargetVal.sub : TargetVal → Nat → Option ℚ
  | .pair lo _, 0 => some lo
  | .pair _ hi, 1 => some hi
  | _, _ => none

/-- Value of the structure handle's `away` field: the vendor delivers a
string, while the adapter's away commands write Python booleans to it. -/
inductive AwayVal where
  | str (s : String)
  | pybool (b : Bool)
deriving DecidableEq, Repr

/-- Python equality test `v == 'away'` on an `AwayVal` (a Python bool never
equals a string). -/
def AwayVal.eqAway : AwayVal → Bool
  | .str s => s = "away"
  | .pybool _ => false

/-- Value of the vendor device's `fan` field: a boolean as delivered by the
vendor client, or the lowercase string `set_fan_mode` writes. -/
inductive FanVal where
  | pybool (b : Bool)
  | str (s : String)
deriving DecidableEq, Repr

/-- Python truthiness of a `FanVal` (empty string and `False` are falsy). -/
def FanVal.truthy : FanVal → Bool
  | .pybool b => b
  | .str s => s ≠ ""

/-- Vendor thermostat device handle: the fields the adapter reads and writes.
`rejectTarget` models the remote service: writes of `target` values it holds
for rejected raise the vendor API fault. -/
structure Device where
  can_heat : Bool
  can_cool : Bool
  has_fan : Bool
  whereLoc : String
  name : String
  humidity : ℚ
  temperature : ℚ
  mode : String
  target : TargetVal
  fan : FanVal
  eco_temperature : PyNum × PyNum
  locked_temperature : ℚ
  min_temperature : ℚ
  max_temperature : ℚ
  is_locked : Bool
  temperature_scale : String
  serial : String
  rejectTarget : TargetVal → Bool

/-- Vendor structure (home/location) handle: carries the away field. -/
structure NestStructure where
  away : AwayVal

/-- Adapter state: the fields `NestThermostat.__init__` sets.  The static
fields (`_unit`, `_fan_list`, `_support_flags`, `_operation_list`,
`_has_fan`) are computed at construction; every cached data field starts as
`None` and is filled by `update`. -/
structure NestThermostat where
  _unit : String
  _fan_list : List String
  _support_flags : Nat
  _operation_list : List String
  _has_fan : Bool
  _away : Option Bool
  _location : Option String
  _name : Option String
  _humidity : Option ℚ
  _target_temperature : Option TargetVal
  _temperature : Option ℚ
  _temperature_scale : Option String
  _mode : Option String
  _fan : Option FanVal
  _eco_temperature : Option (PyNum × PyNum)
  _is_locked : Option Bool
  _locked_temperature : Option ℚ
  _min_temperature : Option ℚ
  _max_temperature : Option ℚ

/-- Adapter construction (`NestThermostat.__init__`): builds the operation
list and the supported-feature bitset from the device's capability booleans
and leaves every cached data field `None`. -/
def NestThermostat.init (device : Device) (temp_unit : String) : NestThermostat :=
  let flags0 := SUPPORT_TARGET_TEMPERATURE ||| SUPPORT_OPERATION_MODE ||| SUPPORT_AWAY_MODE
  let ops0 := [STATE_OFF]
  let ops1 := if device.can_heat then ops0 ++ [STATE_HEAT] else ops0
  let ops2 := if device.can_cool then ops1 ++ [STATE_COOL] else ops1
  let ops3 := if device.can_heat && device.can_cool then ops2 ++ [STATE_AUTO] else ops2
  let flags1 := if device.can_heat && device.can_cool then
      flags0 ||| SUPPORT_TARGET_TEMPERATURE_HIGH ||| SUPPORT_TARGET_TEMPERATURE_LOW
    else flags0
  let ops4 := ops3 ++ [STATE_ECO]
  let flags2 := if device.has_fan then flags1 ||| SUPPORT_FAN_MODE else flags1
  { _unit := temp_unit
    _fan_list := [STATE_ON, STATE_AUTO]
    _support_flags := flags2
    _operation_list := ops4
    _has_fan := device.has_fan
    _away := none
    _location := none
    _name := none
    _humidity := none
    _target_temperature := none
    _temperature := none
    _temperature_scale := none
    _mode := none
    _fan := none
    _eco_temperature := none
    _is_locked := none
    _locked_temperature := none
    _min_temperature := none
    _max_temperature := none }

/-- The world an adapter instance acts on: its own state plus the vendor
device and structure handles it mutates. -/
structure World where
  therm : NestThermostat
  device : Device
  struct : NestStructure

/-- Property `supported_features`. -/
def NestThermostat.supported_features (t : NestThermostat) : Nat :=
  t._support_flags

/-- Property `operation_list`. -/
def NestThermostat.operation_list (t : NestThermostat) : List String :=
  t._operation_list

/-- Property `is_away_mode_on`: returns the cached `_away` value verbatim
(`None` before the first refresh). -/
def NestThermostat.is_away_mode_on (t : NestThermostat) : Option Bool :=
  t._away

/-- Python truthiness of `self.is_away_mode_on` (`None` is falsy). -/
def NestThermostat.awayTruthy (t : NestThermostat) : Bool :=
  t._away = some true

/-- Property `current_operation`: identity on the four plain modes, the
combined heat-cool token displays as auto, anything else (the initial `None`
included) is unknown. -/
def NestThermostat.current_operation (t : NestThermostat) : String :=
  match t._mode with
  | some m =>
    if m = STATE_HEAT ∨ m = STATE_COOL ∨ m = STATE_OFF ∨ m = STATE_ECO then m
    else if m = NEST_MODE_HEAT_COOL then STATE_AUTO
    else STATE_UNKNOWN
  | none => STATE_UNKNOWN

/-- Property `target_temperature`: the cached target only when the mode is
neither the combined heat-cool token nor eco and away mode is not on. -/
def NestThermostat.target_temperature (t : NestThermostat) : Option TargetVal :=
  if t._mode ≠ some NEST_MODE_HEAT_COOL ∧ t._mode ≠ some STATE_ECO ∧
      ¬ t.awayTruthy then
    t._target_temperature
  else none

/-- Shared tail of the low/high accessors: the branch taken when the
eco-range branch does not fire.  `i` is the tuple index (0 = low, 1 = high);
subscripting a cached target that is not a tuple raises. -/
def NestThermostat.rangeHalf (t : NestThermostat) (i : Nat) :
    Except Unit (Option ℚ) :=
  if t._mode = some NEST_MODE_HEAT_COOL then
    match t._target_temperature with
    | some tv =>
      match tv.sub i with
      | some q => .ok (some q)
      | none => .error ()
    | none => .error ()
  else .ok none

/-- Property `target_temperature_low`: the eco low bound when away mode is on
or the mode is eco and that bound is truthy (subscripting an absent eco tuple
raises); otherwise the low half of the cached range in combined heat-cool
mode; otherwise `None`. -/
def NestThermostat.target_temperature_low (t : NestThermostat) :
    Except Unit (Option ℚ) :=
  if t.awayTruthy || t._mode = some STATE_ECO then
    match t._eco_temperature with
    | some (e0, _) => if e0.truthy then .ok e0.toOption else t.rangeHalf 0
    | none => .error ()
  else t.rangeHalf 0

/-- Property `target_temperature_high`: symmetric to the low accessor, with
the eco high bound and the high half of the cached range. -/
def NestThermostat.target_temperature_high (t : NestThermostat) :
    Except Unit (Option ℚ) :=
  if t.awayTruthy || t._mode = some STATE_ECO then
    match t._eco_temperature with
    | some (_, e1) => if e1.truthy then .ok e1.toOption else t.rangeHalf 1
    | none => .error ()
  else t.rangeHalf 1

/-- Python truthiness of the cached `_fan` field (`None` is falsy). -/
def NestThermostat.fanTruthy (t : NestThermostat) : Bool :=
  (t._fan.map FanVal.truthy).getD false

/-- Property `current_fan_mode`: on/auto by fan truthiness when the device
has a fan, `None` otherwise. -/
def NestThermostat.current_fan_mode (t : NestThermostat) : Option String :=
  if t._has_fan then
    some (if t.fanTruthy then STATE_ON else STATE_AUTO)
  else none

/-- Property `fan_list`: the static fan list when the device has a fan. -/
def NestThermostat.fan_list (t : NestThermostat) : Option (List String) :=
  if t._has_fan then some t._fan_list else none

/-- Refresh (`update`): copies the device and structure fields into the cache
verbatim; the away flag caches the comparison of the structure's away field
with the string away, and the temperature-scale token C selects Celsius. -/
def update (w : World) : World :=
  { w with therm := { w.therm with
      _location := some w.device.whereLoc
      _name := some w.device.name
      _humidity := some w.device.humidity
      _temperature := some w.device.temperature
      _mode := some w.device.mode
      _target_temperature := some w.device.target
      _fan := some w.device.fan
      _away := some (w.struct.away.eqAway)
      _eco_temperature := some w.device.eco_temperature
      _locked_temperature := some w.device.locked_temperature
      _min_temperature := some w.device.min_temperature
      _max_temperature := some w.device.max_temperature
      _is_locked := some w.device.is_locked
      _temperature_scale := some (if w.device.temperature_scale = "C"
        then TEMP_CELSIUS else TEMP_FAHRENHEIT) } }

/-- Observable effects of a command: log lines, the vendor write attempt, and
the scheduled forced refresh (`schedule_update_ha_state(True)`). -/
inductive Effect where
  | logDebug
  | logError
  | writeTarget (t : TargetVal)
  | scheduleRefresh
deriving DecidableEq, Repr

/-- Keyword arguments of `set_temperature`. -/
structure Kwargs where
  temperature : Option ℚ
  target_temp_low : Option ℚ
  target_temp_high : Option ℚ

/-- Value `set_temperature` ends up assigning to the device target (`None`
means no write): a (low, high) pair in combined heat-cool mode only when both
bounds are present, the single temperature argument otherwise. -/
def computeTemp (mode : Option String) (kwargs : Kwargs) : Option TargetVal :=
  if mode = some NEST_MODE_HEAT_COOL then
    match kwargs.target_temp_low, kwargs.target_temp_high with
    | some lo, some hi => some (.pair lo hi)
    | _, _ => none
  else kwargs.temperature.map .single

/-- Debug-log effects of `set_temperature` before the write: the heat-cool
branch logs only when it assembled a pair, the other branch logs always. -/
def setTempDebug (mode : Option String) (kwargs : Kwargs) : List Effect :=
  if mode = some NEST_MODE_HEAT_COOL then
    match kwargs.target_temp_low, kwargs.target_temp_high with
    | some _, some _ => [.logDebug]
    | _, _ => []
  else [.logDebug]

/-- Command `set_temperature`: computes the value to write; writes it to the
device target unless it is `None`; when the remote service rejects the write,
the device is unchanged and the adapter logs the error and schedules a forced
refresh.  The cache is never touched directly. -/
def set_temperature (w : World) (kwargs : Kwargs) : World × List Effect :=
  let dbg := setTempDebug w.therm._mode kwargs
  match computeTemp w.therm._mode kwargs with
  | none => (w, dbg)
  | some t =>
    if w.device.rejectTarget t then
      (w, dbg ++ [.writeTarget t, .logError, .scheduleRefresh])
    else
      ({ w with device := { w.device with target := t } },
        dbg ++ [.writeTarget t])

/-- Command `set_operation_mode`: translates the requested mode to the vendor
token (auto becomes the combined heat-cool token, the four plain modes pass
through, anything else falls back to off with an error logged) and writes it
to the device mode field. -/
def set_operation_mode (w : World) (operation_mode : String) :
    World × List Effect :=
  let dm :=
    if operation_mode = STATE_HEAT ∨ operation_mode = STATE_COOL ∨
        operation_mode = STATE_OFF ∨ operation_mode = STATE_ECO then
      (operation_mode, ([] : List Effect))
    else if operation_mode = STATE_AUTO then
      (NEST_MODE_HEAT_COOL, [])
    else
      (STATE_OFF, [.logError])
  ({ w with device := { w.device with mode := dm.1 } }, dm.2)

/-- Command `set_fan_mode`: writes the lowercase mode string to the device
fan field when the device has a fan, otherwise does nothing. -/
def set_fan_mode (w : World) (fan_mode : String) : World :=
  if w.therm._has_fan then
    { w with device := { w.device with fan := .str fan_mode.toLower } }
  else w

/-- Command `turn_away_mode_on`: writes Python `True` to the structure's
away field. -/
def turn_away_mode_on (w : World) : World :=
  { w with struct := { away := .pybool true } }

/-- Command `turn_away_mode_off`: writes Python `False` to the structure's
away field. -/
def turn_away_mode_off (w : World) : World :=
  { w with struct := { away := .pybool false } }

/-! Concrete fixtures used by the witness theorems. -/

/-- Example device: heats, cools, has a fan, accepts every target write. -/
def exDevice : Device :=
  { can_heat := true
    can_cool := true
    has_fan := true
    whereLoc := "hallway"
    name := "living room"
    humidity := 40
    temperature := 21
    mode := "heat"
    target := .single 20
    fan := .pybool false
    eco_temperature := (.num 16, .num 22)
    locked_temperature := 0
    min_temperature := 9
    max_temperature := 32
    is_locked := false
    temperature_scale := "C"
    serial := "serial-1"
    rejectTarget := fun _ => false }

/-- Example device whose remote service rejects every target write. -/
def exDeviceReject : Device :=
  { exDevice with rejectTarget := fun _ => true }

/-- Freshly constructed adapter over the example device. -/
def exTherm : NestThermostat :=
  NestThermostat.init exDevice "°C"

/-! Theorems settling the claims. -/

/-- C5: construction puts off first in the operation list, then heat iff the
device can heat, then cool iff it can cool, then auto iff both, then eco
last; the dual-setpoint feature bits are set iff both capabilities hold, and
the fan feature bit iff the device has a fan; a device with neither
capability gets exactly [off, eco] with no dual-setpoint bits, and a device
with both gets [off, heat, cool, auto, eco] with them. -/
theorem C5_construction (device : Device) (u : String) :
    (NestThermostat.init device u)._operation_list =
      [STATE_OFF] ++ (if device.can_heat then [STATE_HEAT] else [])
        ++ (if device.can_cool then [STATE_COOL] else [])
        ++ (if device.can_heat && device.can_cool then [STATE_AUTO] else [])
        ++ [STATE_ECO]
    ∧ ((NestThermostat.init device u)._support_flags &&&
          SUPPORT_TARGET_TEMPERATURE_HIGH ≠ 0
        ↔ device.can_heat = true ∧ device.can_cool = true)
    ∧ ((NestThermostat.init device u)._support_flags &&&
          SUPPORT_TARGET_TEMPERATURE_LOW ≠ 0
        ↔ device.can_heat = true ∧ device.can_cool = true)
    ∧ ((NestThermostat.init device u)._support_flags &&& SUPPORT_FAN_MODE ≠ 0
        ↔ device.has_fan = true)
    ∧ (device.can_heat = false → device.can_cool = false →
        (NestThermostat.init device u)._operation_list = [STATE_OFF, STATE_ECO])
    ∧ (device.can_heat = true → device.can_cool = true →
        (NestThermostat.init device u)._operation_list =
          [STATE_OFF, STATE_HEAT, STATE_COOL, STATE_AUTO, STATE_ECO]) := by
  rcases device with ⟨ch, cc, hf, _, _, _, _, _, _, _, _, _, _, _, _, _, _, _⟩
  cases ch <;> cases cc <;> cases hf <;>
    simp [NestThermostat.init, STATE_OFF, STATE_HEAT, STATE_COOL, STATE_AUTO,
      STATE_ECO, SUPPORT_TARGET_TEMPERATURE, SUPPORT_TARGET_TEMPERATURE_HIGH,
      SUPPORT_TARGET_TEMPERATURE_LOW, SUPPORT_FAN_MODE, SUPPORT_OPERATION_MODE,
      SUPPORT_AWAY_MODE] <;> decide

/-- C5 witness: the example device (both capabilities, fan) applied to the
construction theorem yields the full operation list. -/
theorem C5_construction_witness :
    (NestThermostat.init exDevice "°C")._operation_list =
      [STATE_OFF, STATE_HEAT, STATE_COOL, STATE_AUTO, STATE_ECO] :=
  (C5_construction exDevice "°C").2.2.2.2.2 rfl rfl

/-- C6: current_operation is the identity on heat, cool, off and eco, maps
the combined heat-cool token to auto, and reports unknown for every other
cached mode value, the initial `None` included. -/
theorem C6_current_operation (t : NestThermostat) :
    (∀ m, t._mode = some m →
      (m = STATE_HEAT ∨ m = STATE_COOL ∨ m = STATE_OFF ∨ m = STATE_ECO) →
      t.current_operation = m)
    ∧ (t._mode = some NEST_MODE_HEAT_COOL → t.current_operation = STATE_AUTO)
    ∧ (∀ m, t._mode = some m →
        m ∉ [STATE_HEAT, STATE_COOL, STATE_OFF, STATE_ECO, NEST_MODE_HEAT_COOL] →
        t.current_operation = STATE_UNKNOWN)
    ∧ (t._mode = none → t.current_operation = STATE_UNKNOWN) := by
  refine ⟨?_, ?_, ?_, ?_⟩
  · rintro m hm hin
    simp [NestThermostat.current_operation, hm, hin]
  · intro hm
    simp [NestThermostat.current_operation, hm, NEST_MODE_HEAT_COOL, STATE_HEAT,
      STATE_COOL, STATE_OFF, STATE_ECO]
  · rintro m hm hnin
    simp only [List.mem_cons, List.not_mem_nil, or_false, not_or] at hnin
    obtain ⟨h1, h2, h3, h4, h5⟩ := hnin
    simp [NestThermostat.current_operation, hm, h1, h2, h3, h4, h5]
  · intro hm
    simp [NestThermostat.current_operation, hm]

/-- C6 witness: an adapter caching the combined heat-cool token reports
auto. -/
theorem C6_current_operation_witness :
    ({ exTherm with _mode := some NEST_MODE_HEAT_COOL } :
      NestThermostat).current_operation = STATE_AUTO :=
  (C6_current_operation _).2.1 rfl

/-- C8: current_fan_mode is on when the device has a fan and the cached fan
field is truthy, auto when it has a fan and the field is falsy, and `None`
when the device has no fan hardware. -/
theorem C8_current_fan_mode (t : NestThermostat) :
    (t._has_fan = true → t.fanTruthy = true → t.current_fan_mode = some STATE_ON)
    ∧ (t._has_fan = true → t.fanTruthy = false →
        t.current_fan_mode = some STATE_AUTO)
    ∧ (t._has_fan = false → t.current_fan_mode = none) := by
  refine ⟨?_, ?_, ?_⟩ <;> intro h1 <;>
    simp_all [NestThermostat.current_fan_mode]

/-- C8 witness: the example adapter has a fan and a falsy cached fan field,
so it reports auto. -/
theorem C8_current_fan_mode_witness :
    ({ exTherm with _fan := some (.pybool false) } :
      NestThermostat).current_fan_mode = some STATE_AUTO :=
  (C8_current_fan_mode _).2.1 rfl rfl

/-- C9: update caches the away flag as true exactly when the structure's
away field equals the string away; the away commands write the Python
booleans True and False to that field; hence over a structure storing the
written value verbatim, turn_away_mode_on followed by update leaves
is_away_mode_on reporting false. -/
theorem C9_away_round_trip (w : World) :
    ((update w).therm._away = some true ↔ w.struct.away = .str "away")
    ∧ (turn_away_mode_on w).struct.away = .pybool true
    ∧ (turn_away_mode_off w).struct.away = .pybool false
    ∧ (update (turn_away_mode_on w)).therm.is_away_mode_on = some false := by
  refine ⟨?_, rfl, rfl, rfl⟩
  rcases hw : w.struct.away with s | b <;>
    simp [update, AwayVal.eqAway, hw]

/-- C7: the supported-feature bitset, the operation list, the has-fan flag
and the fan-mode list are left unchanged by update, set_temperature,
set_operation_mode, set_fan_mode and both away commands. -/
theorem C7_static_fields (w : World) (kwargs : Kwargs) (m fm : String) :
    ((update w).therm._support_flags = w.therm._support_flags
      ∧ (update w).therm._operation_list = w.therm._operation_list
      ∧ (update w).therm._has_fan = w.therm._has_fan
      ∧ (update w).therm._fan_list = w.therm._fan_list)
    ∧ (set_temperature w kwargs).1.therm = w.therm
    ∧ (set_operation_mode w m).1.therm = w.therm
    ∧ (set_fan_mode w fm).therm = w.therm
    ∧ (turn_away_mode_on w).therm = w.therm
    ∧ (turn_away_mode_off w).therm = w.therm := by
  refine ⟨⟨rfl, rfl, rfl, rfl⟩, ?_, rfl, ?_, rfl, rfl⟩
  · unfold set_temperature
    rcases computeTemp w.therm._mode kwargs with _ | t
    · rfl
    · dsimp only
      split <;> rfl
  · unfold set_fan_mode
    split <;> rfl

/-- C2: set_operation_mode writes the input itself to the device mode field
for heat, cool, off and eco, writes the combined heat-cool token for auto,
and for any other input writes off and logs an error; the embedding is a
total function, matching the absence of any raise in the source. -/
theorem C2_set_operation_mode (w : World) (m : String) :
    ((m = STATE_HEAT ∨ m = STATE_COOL ∨ m = STATE_OFF ∨ m = STATE_ECO) →
      (set_operation_mode w m).1.device.mode = m)
    ∧ (m = STATE_AUTO →
        (set_operation_mode w m).1.device.mode = NEST_MODE_HEAT_COOL)
    ∧ (m ∉ [STATE_HEAT, STATE_COOL, STATE_OFF, STATE_ECO, STATE_AUTO] →
        (set_operation_mode w m).1.device.mode = STATE_OFF
          ∧ Effect.logError ∈ (set_operation_mode w m).2)
    ∧ (m ∈ [STATE_HEAT, STATE_COOL, STATE_OFF, STATE_ECO, STATE_AUTO] →
        Effect.logError ∉ (set_operation_mode w m).2) := by
  refine ⟨?_, ?_, ?_, ?_⟩
  · intro hin
    simp [set_operation_mode, hin]
  · intro ha
    subst ha
    simp [set_operation_mode, STATE_AUTO, STATE_HEAT, STATE_COOL, STATE_OFF,
      STATE_ECO]
  · intro hnin
    simp only [List.mem_cons, List.not_mem_nil, or_false, not_or] at hnin
    obtain ⟨h1, h2, h3, h4, h5⟩ := hnin
    simp [set_operation_mode, h1, h2, h3, h4, h5]
  · intro hin
    simp only [List.mem_cons, List.not_mem_nil, or_false] at hin
    rcases hin with h | h | h | h | h <;> subst h <;>
      simp [set_operation_mode, STATE_AUTO, STATE_HEAT, STATE_COOL, STATE_OFF,
        STATE_ECO]

/-- Example world: fresh adapter, accepting device, structure at home. -/
def exWorld : World :=
  { therm := exTherm, device := exDevice, struct := { away := .str "home" } }

/-- C2 witness: the unrecognized input bogus ends with the device mode off
and an error logged. -/
theorem C2_set_operation_mode_witness :
    (set_operation_mode exWorld "bogus").1.device.mode = STATE_OFF
    ∧ Effect.logError ∈ (set_operation_mode exWorld "bogus").2 :=
  (C2_set_operation_mode exWorld "bogus").2.2.1 (by decide)

/-- Helper: the debug-log prefix of `set_temperature` contains nothing but
debug-log entries. -/
theorem setTempDebug_only_debug (m : Option String) (k : Kwargs) (e : Effect)
    (he : e ∈ setTempDebug m k) : e = .logDebug := by
  unfold setTempDebug at he
  split at he
  · split at he <;> simp_all
  · simp_all

/-- C10: when the required arguments are absent (either bound missing in
combined heat-cool mode, the single temperature missing in every other
mode), set_temperature writes nothing to the device, changes no adapter
cache field, and takes no error path (no error logged, no refresh
scheduled). -/
theorem C10_missing_args (w : World) (kwargs : Kwargs)
    (h : (w.therm._mode = some NEST_MODE_HEAT_COOL ∧
            (kwargs.target_temp_low = none ∨ kwargs.target_temp_high = none))
       ∨ (w.therm._mode ≠ some NEST_MODE_HEAT_COOL ∧ kwargs.temperature = none)) :
    (set_temperature w kwargs).1 = w
    ∧ (∀ tv, Effect.writeTarget tv ∉ (set_temperature w kwargs).2)
    ∧ Effect.logError ∉ (set_temperature w kwargs).2
    ∧ Effect.scheduleRefresh ∉ (set_temperature w kwargs).2 := by
  have hc : computeTemp w.therm._mode kwargs = none := by
    rcases h with ⟨hm, hlh⟩ | ⟨hm, ht⟩
    · rcases hl : kwargs.target_temp_low with _ | lo <;>
        rcases hh : kwargs.target_temp_high with _ | hi <;>
          simp_all [computeTemp]
    · simp [computeTemp, hm, ht]
  have hs : set_temperature w kwargs =
      (w, setTempDebug w.therm._mode kwargs) := by
    simp [set_temperature, hc]
  rw [hs]
  refine ⟨rfl, ?_, ?_, ?_⟩
  · intro tv hmem
    exact absurd (setTempDebug_only_debug _ _ _ hmem) (by simp)
  · intro hmem
    exact absurd (setTempDebug_only_debug _ _ _ hmem) (by simp)
  · intro hmem
    exact absurd (setTempDebug_only_debug _ _ _ hmem) (by simp)

/-- Example adapter whose cached mode is plain heat. -/
def exThermHeat : NestThermostat :=
  { exTherm with _mode := some "heat" }

/-- Example world for the missing-argument case. -/
def exWorld10 : World :=
  { therm := exThermHeat, device := exDevice, struct := { away := .str "home" } }

/-- Empty keyword arguments. -/
def exKwargsEmpty : Kwargs :=
  { temperature := none, target_temp_low := none, target_temp_high := none }

/-- C10 witness: in heat mode with no arguments at all, nothing changes and
no write effect is emitted. -/
theorem C10_missing_args_witness :
    (set_temperature exWorld10 exKwargsEmpty).1 = exWorld10
    ∧ Effect.writeTarget (.single 20) ∉
        (set_temperature exWorld10 exKwargsEmpty).2 :=
  ⟨(C10_missing_args exWorld10 exKwargsEmpty (Or.inr ⟨by decide, rfl⟩)).1,
   (C10_missing_args exWorld10 exKwargsEmpty
      (Or.inr ⟨by decide, rfl⟩)).2.1 (.single 20)⟩

/-- C3: over a cached state whose eco range is a pair and whose cached
target is a range tuple, the low accessor returns the eco low bound when
away mode is on or the mode is eco and that bound is truthy, else the low
half of the range in combined heat-cool mode, else `None`; the high accessor
is symmetric; with away mode on and eco low bound 16 the low accessor
returns 16 whatever the mode. -/
theorem C3_target_low_high (t : NestThermostat) (e0 e1 : PyNum) (lo hi : ℚ)
    (heco : t._eco_temperature = some (e0, e1))
    (htgt : t._target_temperature = some (.pair lo hi)) :
    t.target_temperature_low =
      (if (t.awayTruthy = true ∨ t._mode = some STATE_ECO) ∧ e0.truthy = true
       then .ok e0.toOption
       else if t._mode = some NEST_MODE_HEAT_COOL then .ok (some lo)
       else .ok none)
    ∧ t.target_temperature_high =
      (if (t.awayTruthy = true ∨ t._mode = some STATE_ECO) ∧ e1.truthy = true
       then .ok e1.toOption
       else if t._mode = some NEST_MODE_HEAT_COOL then .ok (some hi)
       else .ok none)
    ∧ (t.awayTruthy = true → e0 = .num 16 →
        t.target_temperature_low = .ok (some 16)) := by
  have hlow : t.target_temperature_low =
      (if (t.awayTruthy = true ∨ t._mode = some STATE_ECO) ∧ e0.truthy = true
       then .ok e0.toOption
       else if t._mode = some NEST_MODE_HEAT_COOL then .ok (some lo)
       else .ok none) := by
    simp only [NestThermostat.target_temperature_low, NestThermostat.rangeHalf,
      heco, htgt, Bool.or_eq_true, decide_eq_true_eq, TargetVal.sub]
    split_ifs <;> simp_all
  have hhigh : t.target_temperature_high =
      (if (t.awayTruthy = true ∨ t._mode = some STATE_ECO) ∧ e1.truthy = true
       then .ok e1.toOption
       else if t._mode = some NEST_MODE_HEAT_COOL then .ok (some hi)
       else .ok none) := by
    simp only [NestThermostat.target_temperature_high, NestThermostat.rangeHalf,
      heco, htgt, Bool.or_eq_true, decide_eq_true_eq, TargetVal.sub]
    split_ifs <;> simp_all
  refine ⟨hlow, hhigh, ?_⟩
  intro ha he0
  subst he0
  rw [hlow, if_pos ⟨Or.inl ha, by decide⟩]
  rfl

/-- Example adapter state for the eco precedence: away on, mode cool, eco
range (16, 22), cached range (18, 24). -/
def exTherm3 : NestThermostat :=
  { exTherm with
    _mode := some "cool"
    _away := some true
    _eco_temperature := some (.num 16, .num 22)
    _target_temperature := some (.pair 18 24) }

/-- C3 witness: with away mode on, eco range (16, 22) and mode cool, the low
accessor returns 16. -/
theorem C3_target_low_high_witness :
    exTherm3.target_temperature_low = .ok (some 16) :=
  (C3_target_low_high exTherm3 (.num 16) (.num 22) 18 24 rfl rfl).2.2 rfl rfl

/-- C4: target_temperature is the cached setpoint exactly when the mode is
neither the combined heat-cool token nor eco and away mode is off, and
`None` in every other case; with mode heat-cool, cached range (18, 24) and
away mode off it returns `None` while the low and high accessors return 18
and 24. -/
theorem C4_target_temperature (t : NestThermostat) :
    (t._mode ≠ some NEST_MODE_HEAT_COOL → t._mode ≠ some STATE_ECO →
      t.awayTruthy = false → t.target_temperature = t._target_temperature)
    ∧ ((t._mode = some NEST_MODE_HEAT_COOL ∨ t._mode = some STATE_ECO ∨
        t.awayTruthy = true) → t.target_temperature = none)
    ∧ (t._mode = some NEST_MODE_HEAT_COOL →
        t._target_temperature = some (.pair 18 24) → t.awayTruthy = false →
        t.target_temperature = none
          ∧ t.target_temperature_low = .ok (some 18)
          ∧ t.target_temperature_high = .ok (some 24)) := by
  refine ⟨?_, ?_, ?_⟩
  · intro h1 h2 h3
    simp [NestThermostat.target_temperature, h1, h2, h3]
  · intro h
    rcases h with h | h | h <;> simp [NestThermostat.target_temperature, h]
  · intro hm htgt ha
    refine ⟨?_, ?_, ?_⟩
    · simp [NestThermostat.target_temperature, hm]
    · simp [NestThermostat.target_temperature_low, NestThermostat.rangeHalf,
        hm, htgt, ha, TargetVal.sub, NEST_MODE_HEAT_COOL, STATE_ECO]
    · simp [NestThermostat.target_temperature_high, NestThermostat.rangeHalf,
        hm, htgt, ha, TargetVal.sub, NEST_MODE_HEAT_COOL, STATE_ECO]

/-- Example adapter state: mode heat-cool, cached range (18, 24), away
off. -/
def exTherm4 : NestThermostat :=
  { exTherm with
    _mode := some NEST_MODE_HEAT_COOL
    _away := some false
    _target_temperature := some (.pair 18 24) }

/-- C4 witness: mode heat-cool with cached range (18, 24) and away off. -/
theorem C4_target_temperature_witness :
    exTherm4.target_temperature = none
    ∧ exTherm4.target_temperature_low = .ok (some 18)
    ∧ exTherm4.target_temperature_high = .ok (some 24) :=
  (C4_target_temperature exTherm4).2.2 rfl rfl rfl

/-- C1: when set_temperature assembles a value and the remote service
rejects the write, the adapter logs the error and schedules a forced
refresh, changes neither its cache nor the device, attempts the write
exactly once, and after the subsequent refresh the cached target is the
device's unchanged target, not the rejected value. -/
theorem C1_set_temperature_fault (w : World) (kwargs : Kwargs) (tv : TargetVal)
    (hc : computeTemp w.therm._mode kwargs = some tv)
    (hr : w.device.rejectTarget tv = true) :
    Effect.logError ∈ (set_temperature w kwargs).2
    ∧ Effect.scheduleRefresh ∈ (set_temperature w kwargs).2
    ∧ (set_temperature w kwargs).1 = w
    ∧ ((set_temperature w kwargs).2.filter
        (fun e => match e with | .writeTarget _ => true | _ => false))
        = [.writeTarget tv]
    ∧ (update (set_temperature w kwargs).1).therm._target_temperature
        = some w.device.target
    ∧ (tv ≠ w.device.target →
        (update (set_temperature w kwargs).1).therm._target_temperature
          ≠ some tv) := by
  have hs : set_temperature w kwargs =
      (w, setTempDebug w.therm._mode kwargs ++
        [.writeTarget tv, .logError, .scheduleRefresh]) := by
    simp [set_temperature, hc, hr]
  rw [hs]
  refine ⟨by simp, by simp, rfl, ?_, rfl, ?_⟩
  · rw [List.filter_append]
    have h1 : (setTempDebug w.therm._mode kwargs).filter
        (fun e => match e with | Effect.writeTarget _ => true | _ => false)
        = [] := by
      rw [List.filter_eq_nil_iff]
      intro a ha
      rw [setTempDebug_only_debug _ _ _ ha]
      simp
    rw [h1]
    rfl
  · intro hne h
    exact hne (Option.some.inj h).symm

/-- Example world whose device rejects every target write, cached mode
heat. -/
def exWorldReject : World :=
  { therm := exThermHeat, device := exDeviceReject,
    struct := { away := .str "home" } }

/-- Keyword arguments carrying only the single temperature 25. -/
def exKwargsTemp : Kwargs :=
  { temperature := some 25, target_temp_low := none, target_temp_high := none }

/-- C1 witness: a rejected write of 25 schedules a forced refresh, and after
that refresh the cached target is the device's unchanged 20, not 25. -/
theorem C1_set_temperature_fault_witness :
    Effect.scheduleRefresh ∈ (set_temperature exWorldReject exKwargsTemp).2
    ∧ (update (set_temperature exWorldReject exKwargsTemp).1).therm._target_temperature
        = some (.single 20)
    ∧ (update (set_temperature exWorldReject exKwargsTemp).1).therm._target_temperature
        ≠ some (.single 25) := by
  have h := C1_set_temperature_fault exWorldReject exKwargsTemp
    (.single 25) (by decide) rfl
  exact ⟨h.2.1, h.2.2.2.2.1, h.2.2.2.2.2 (by decide)⟩
